import Mathlib

/-
Verification development for the residence-life survey dashboard
(src/app/page.tsx).  The aggregation core of the page component is embedded
shallowly: cell values, rows and datasets become inductive data, the
aggregation functions become executable Lean functions over ℚ (JavaScript's
floating-point arithmetic is modelled by exact rational arithmetic), and the
claims about them are proved or refuted below the definitions.
-/

set_option maxRecDepth 2000

namespace ResLifeDashboard

/-- A raw CSV cell: the TypeScript type `string | number | null | undefined`
(`RawRow`, src/app/page.tsx line 23). -/
inductive CellValue where
  | null
  | undefined
  | str (s : String)
  | num (q : ℚ)

/-- A parsed CSV row, `Record<string, string | number | null | undefined>`:
modelled as its lookup function.  A column that is missing from the record
maps to `undefined`, matching JavaScript property access. -/
abbrev Row := String → CellValue

/-- Consume a run of leading decimal digits: accumulated value, digit count,
rest of the input. -/
def takeDigits (acc count : Nat) : List Char → Nat × Nat × List Char
  | [] => (acc, count, [])
  | c :: cs =>
    if c.isDigit then takeDigits (acc * 10 + (c.toNat - 48)) (count + 1) cs
    else (acc, count, c :: cs)

/-- JavaScript `Number(s)` applied to a trimmed, non-empty string, modelled
for decimal numerals: optional sign, integer part, optional fraction,
optional exponent.  `none` stands for `NaN`, and also for `Infinity`, which
the only caller rejects anyway through `Number.isFinite`.  Exotic syntaxes
(hexadecimal, binary, octal literals) are outside the model; no claim
depends on them. -/
def jsNumber (s : String) : Option ℚ :=
  let cs := s.toList
  let signAndRest : ℚ × List Char :=
    match cs with
    | '-' :: r => (-1, r)
    | '+' :: r => (1, r)
    | _ => (1, cs)
  let ir := takeDigits 0 0 signAndRest.2
  let fr : Nat × Nat × List Char :=
    match ir.2.2 with
    | '.' :: r => takeDigits 0 0 r
    | _ => (0, 0, ir.2.2)
  if ir.2.1 + fr.2.1 = 0 then none
  else
    let mant : ℚ := signAndRest.1 * ((ir.1 : ℚ) + (fr.1 : ℚ) / (10 : ℚ) ^ fr.2.1)
    match fr.2.2 with
    | [] => some mant
    | e :: r =>
      if e = 'e' ∨ e = 'E' then
        let esignAndRest : Bool × List Char :=
          match r with
          | '-' :: rr => (false, rr)
          | '+' :: rr => (true, rr)
          | _ => (true, r)
        let er := takeDigits 0 0 esignAndRest.2
        if er.2.1 = 0 then none
        else if er.2.2 ≠ [] then none
        else if esignAndRest.1 then some (mant * (10 : ℚ) ^ er.1)
        else some (mant / (10 : ℚ) ^ er.1)
      else none

/-- JavaScript `String.prototype.trim`: drop whitespace from both ends.
(`String.trim` from the Lean library is avoided only because its
`Substring`-based implementation does not reduce in the kernel.) -/
def jsTrim (s : String) : String :=
  String.mk (((s.data.dropWhile Char.isWhitespace).reverse.dropWhile
    Char.isWhitespace).reverse)

/-- `String(v ?? '')`, the coercion the dashboard applies to categorical
cells: the empty string for null/undefined, the string itself for strings.
A numeric cell is rendered through its integer numeral when whole, matching
JavaScript; the fractional case falls back to `Rat`'s representation — the
dashboard's categorical columns hold strings, and no claim stringifies a
fractional numeric cell. -/
def coalesceStr (v : CellValue) : String :=
  match v with
  | .null => ""
  | .undefined => ""
  | .str s => s
  | .num q => if q.den = 1 then toString q.num else toString q

/-- `toLikert` (src/app/page.tsx lines 180–188).  For a numeric cell the
source computes `Number(String(value).trim())`; `String` of a finite
JavaScript number is non-empty and `Number` round-trips it back to the same
value, so that detour is collapsed to the number itself. -/
def toLikert (value : CellValue) : Option ℚ :=
  match value with
  | .null => none
  | .undefined => none
  | .num n => if n < 1 ∨ n > 5 then none else some n
  | .str raw =>
    let s := jsTrim raw
    if s = "" then none
    else
      match jsNumber s with
      | none => none
      | some n => if n < 1 ∨ n > 5 then none else some n

/-- `QuestionStat` (src/app/page.tsx lines 166–169). -/
structure QuestionStat where
  question : String
  mean : ℚ
deriving DecidableEq

/-- The body of the `rows.forEach` loop of `computeQuestionMeans`
(src/app/page.tsx lines 199–206) as a fold step over `(sum, count)`. -/
def likertStep (rowFilter : Option (Row → Bool)) (q : String)
    (acc : ℚ × Nat) (row : Row) : ℚ × Nat :=
  if (match rowFilter with | some f => !f row | none => false) then acc
  else
    match toLikert (row q) with
    | some score => (acc.1 + score, acc.2 + 1)
    | none => acc

/-- `computeQuestionMeans` (src/app/page.tsx lines 190–211). -/
def computeQuestionMeans (rows : List Row) (questions : List String)
    (rowFilter : Option (Row → Bool)) : List QuestionStat :=
  questions.map fun q =>
    let sc := rows.foldl (likertStep rowFilter q) (0, 0)
    { question := q, mean := if sc.2 > 0 then sc.1 / (sc.2 : ℚ) else 0 }

/-- `IndexKey` (src/app/page.tsx lines 25–31). -/
inductive IndexKey where
  | livingEnvironment
  | belonging
  | raSupport
  | staff
  | empowerment
  | overallExperience
deriving DecidableEq

/-- `IndexConfig` (src/app/page.tsx lines 33–40). -/
structure IndexConfig where
  key : IndexKey
  label : String
  description : String
  color : String
  questions : List String
  rowFilter : Option (Row → Bool)

/-- Column name constant `COL_BUILDING` (src/app/page.tsx line 54). -/
def COL_BUILDING : String := "Which building do you currently live in?"

/-- Column name constant `COL_RA_ASSIGNED` (src/app/page.tsx line 56). -/
def COL_RA_ASSIGNED : String :=
  "Do you have a Resident Assistant (RA) assigned to your community?"

/-- The RA-Support eligibility predicate, the `rowFilter` of the `raSupport`
entry of `INDEXES` (src/app/page.tsx lines 111–114). -/
def raAssignedYes (row : Row) : Bool :=
  jsTrim (coalesceStr (row COL_RA_ASSIGNED)) == "Yes"

/-- `INDEXES` (src/app/page.tsx lines 66–157): the static catalog of the six
composite indexes. -/
def INDEXES : List IndexConfig := [
  { key := .livingEnvironment
    label := "Living Environment"
    description :=
      "Safety, inclusivity, facilities, and how the hall feels day-to-day."
    color := "#38bdf8"
    questions := [
      "My residence hall feels like a safe environment.",
      "I feel comfortable walking in and around my hall, even at night.",
      "My hall provides a welcoming and inclusive community.",
      "Physical facilities (cleanliness, maintenance, common spaces) meet my needs.",
      "Amenities (lounges, study areas, kitchens) are adequate and usable.",
      "Community events and programs contribute to my sense of belonging."]
    rowFilter := none },
  { key := .belonging
    label := "Belonging & Connection"
    description :=
      "Feeling noticed, valued, able to be oneself, and connected to others."
    color := "#6366f1"
    questions := [
      "I feel a strong sense of belonging in my residence hall.",
      "I have developed meaningful friendships within my hall.",
      "People in my hall notice when I am not around.",
      "I feel that my presence and participation matter to others in my community.",
      "I feel comfortable expressing my identity in my residence hall.",
      "My hall environment makes it easy to meet and connect with others."]
    rowFilter := none },
  { key := .raSupport
    label := "RA Support"
    description :=
      "Approachability, communication, and support from Resident Assistants."
    color := "#22c55e"
    questions := [
      "My RA is approachable and easy to contact.",
      "My RA keeps me informed about hall policies, resources, and events.",
      "My RA supports my personal and academic success.",
      "My RA responds to my needs in a timely manner.",
      "My RA encourages community connection and belonging.",
      "I feel comfortable seeking assistance from my RA when needed."]
    rowFilter := some raAssignedYes },
  { key := .staff
    label := "Professional Staff"
    description :=
      "Visibility, responsiveness, inclusivity, and voice with pro staff."
    color := "#f97316"
    questions := [
      "Professional staff are visible and accessible in my hall.",
      "Professional staff respond effectively to student concerns.",
      "Professional staff follow up after issues are reported.",
      "Professional staff promote an inclusive and welcoming environment.",
      "I have opportunities to share feedback with professional staff.",
      "I believe my opinions are considered in hall-level decisions."]
    rowFilter := none },
  { key := .empowerment
    label := "Empowerment & Development"
    description :=
      "Growth, voice, independence, and self-authorship in the hall."
    color := "#ec4899"
    questions := [
      "I feel empowered to make decisions that affect my residential experience.",
      "Living on campus helps me reflect on my personal values and goals.",
      "When I disagree with staff or policies, I feel comfortable expressing my perspective.",
      "My experiences in the hall have helped me become more independent and confident."]
    rowFilter := none },
  { key := .overallExperience
    label := "Overall Experience"
    description :=
      "Big-picture residential satisfaction and connection to USF."
    color := "#a855f7"
    questions := [
      "Living in on-campus housing has positively impacted my USF experience.",
      "I would recommend living on campus to other students.",
      "If given the option, I would choose to live on campus again.",
      "Because of my residential experience, I feel more connected to the broader USF community."]
    rowFilter := none }]

/-- `IndexScore` (src/app/page.tsx lines 159–164). -/
structure IndexScore where
  key : IndexKey
  label : String
  color : String
  mean : ℚ
deriving DecidableEq

/-- `computeIndexScores` (src/app/page.tsx lines 213–228). -/
def computeIndexScores (rows : List Row) : List IndexScore :=
  INDEXES.map fun idx =>
    let qs := computeQuestionMeans rows idx.questions idx.rowFilter
    let validMeans := (qs.map fun q => q.mean).filter fun m => decide (m > 0)
    let mean :=
      if validMeans.length > 0 then
        validMeans.foldl (· + ·) 0 / (validMeans.length : ℚ)
      else 0
    { key := idx.key, label := idx.label, color := idx.color, mean := mean }

/-- `filterRowsByHall` (src/app/page.tsx lines 230–235). -/
def filterRowsByHall (rows : List Row) (hallFilter : String) : List Row :=
  if hallFilter = "ALL" then rows
  else rows.filter fun r => jsTrim (coalesceStr (r COL_BUILDING)) == hallFilter

/-- Scan for the leftmost occurrence of the regular expression `20\d{2}`
and return the four-digit number it matches. -/
def findYear : List Char → Option Nat
  | [] => none
  | c :: rest =>
    match c, rest with
    | '2', '0' :: a :: b :: _ =>
      if a.isDigit && b.isDigit then some (2000 + 10 * (a.toNat - 48) + (b.toNat - 48))
      else findYear rest
    | _, _ => findYear rest

/-- `extractYearOrOrder` (src/app/page.tsx lines 246–253): the four-digit
year in the label when `label.match(/(20\d{2})/)` finds one, otherwise
`1000 + fallbackIndex`. -/
def extractYearOrOrder (label : String) (fallbackIndex : Nat) : Nat :=
  match findYear label.toList with
  | some y => y
  | none => 1000 + fallbackIndex

/-- Dataset provenance (src/app/page.tsx line 46). -/
inductive Source where
  | demo
  | upload
deriving DecidableEq

/-- `Dataset` (src/app/page.tsx lines 42–47). -/
structure Dataset where
  id : String
  label : String
  rows : List Row
  source : Source

/-- `Number(x.toFixed(2))`: round to two decimal places.  `toFixed` rounds
to the nearest hundredth; the scores rounded here are non-negative, so
rounding half up agrees with JavaScript's half-away-from-zero. -/
def round2 (q : ℚ) : ℚ := ((round (q * 100) : ℤ) : ℚ) / 100

/-- The per-dataset entry of `indexScoresByDataset` (src/app/page.tsx lines
346–353): the index scores of a dataset's rows under the shared hall
filter.  The source memoizes these in a record keyed by `ds.id`; dataset
ids (`'demo'`, `` `${file.name}-${Date.now()}-${idx}` ``) are unique, so
the memo is collapsed into the direct computation. -/
def scoresFor (ds : Dataset) (hall : String) : List IndexScore :=
  computeIndexScores (filterRowsByHall ds.rows hall)

/-- `scores.find((s) => s.key === idx.key)?.mean ?? 0` (src/app/page.tsx
line 438). -/
def comparisonCell (scores : List IndexScore) (k : IndexKey) : ℚ :=
  match scores.find? (fun s => decide (s.key = k)) with
  | some s => s.mean
  | none => 0

/-- JavaScript object property assignment `obj[k] = v`: replace the value
in place when the key is present, append the property otherwise. -/
def objSet : List (String × ℚ) → String → ℚ → List (String × ℚ)
  | [], k, v => [(k, v)]
  | p :: rest, k, v => if p.1 == k then (k, v) :: rest else p :: objSet rest k v

/-- JavaScript object property read `obj[k]`: the value of the first (in a
well-formed object, only) property with that key. -/
def lookupObj : List (String × ℚ) → String → Option ℚ
  | [], _ => none
  | p :: t, k => if p.1 == k then some p.2 else lookupObj t k

/-- One row of `comparisonData` (src/app/page.tsx lines 434–442): the
dataset columns written into the record `{ index: idx.label }`, one
`row[ds.label] = Number(score.toFixed(2))` assignment per dataset. -/
def rowFor (datasets : List Dataset) (hall : String) (idx : IndexConfig) :
    List (String × ℚ) :=
  datasets.foldl
    (fun obj ds => objSet obj ds.label (round2 (comparisonCell (scoresFor ds hall) idx.key)))
    []

/-- `comparisonData` (src/app/page.tsx lines 432–443).  The fixed `index`
property of each row is kept apart from the numeric dataset columns as the
first component of the pair. -/
def comparisonData (datasets : List Dataset) (hall : String) :
    List (String × List (String × ℚ)) :=
  if datasets.length < 2 then []
  else INDEXES.map fun idx => (idx.label, rowFor datasets hall idx)

/-- One point of the trend series (src/app/page.tsx lines 452–456). -/
structure TrendPoint where
  datasetLabel : String
  order : Nat
  score : ℚ
deriving DecidableEq

/-- `trendLineData` (src/app/page.tsx lines 446–461).  `Array.prototype.sort`
with the comparator `(a, b) => a.order - b.order` is a stable ascending
sort by `order`, modelled by the stable `List.mergeSort`. -/
def trendLineData (datasets : List Dataset) (hall : String)
    (trendIndexKey : IndexKey) : List TrendPoint :=
  if datasets.length < 2 then []
  else
    let rows :=
      (datasets.enum.map fun (i, ds) =>
        let s := (scoresFor ds hall).find? fun sc => decide (sc.key = trendIndexKey)
        ({ datasetLabel := ds.label
           order := extractYearOrOrder ds.label i
           score := match s with | some sc => round2 sc.mean | none => 0 } : TrendPoint)).filter
        fun r => decide (r.score > 0)
    rows.mergeSort fun a b => decide (a.order ≤ b.order)

/-- `trendDomain` (src/app/page.tsx lines 463–470).  `Math.min(...scores)`
and `Math.max(...scores)` over the non-empty score list are the folds of
binary min/max; the pad is 0.2 = 1/5. -/
def trendDomain (trend : List TrendPoint) : ℚ × ℚ :=
  match trend.map (fun r => r.score) with
  | [] => (1, 5)
  | s :: rest =>
    (max 1 (rest.foldl min s - 1/5), min 5 (rest.foldl max s + 1/5))

/-- The rows that survive the optional eligibility predicate — the rows the
`forEach` of `computeQuestionMeans` does not skip. -/
def eligibleRows (rows : List Row) (rowFilter : Option (Row → Bool)) : List Row :=
  match rowFilter with
  | some f => rows.filter f
  | none => rows

/-- The valid (non-absent) Likert-coerced responses a question receives from
a row set, after the eligibility predicate. -/
def validScores (rows : List Row) (q : String) (rowFilter : Option (Row → Bool)) :
    List ℚ :=
  (eligibleRows rows rowFilter).filterMap fun row => toLikert (row q)

/-- The mean a question should get: the average of its valid responses, or
the 0 "no data" sentinel when there are none. -/
def questionMeanSpec (rows : List Row) (q : String)
    (rowFilter : Option (Row → Bool)) : ℚ :=
  let v := validScores rows q rowFilter
  if v.length > 0 then v.sum / (v.length : ℚ) else 0

/-- The mean an index should get: the average of the positive ("has data")
question means, or the 0 sentinel when every question mean is 0. -/
def indexMeanSpec (rows : List Row) (idx : IndexConfig) : ℚ :=
  let pos := ((computeQuestionMeans rows idx.questions idx.rowFilter).map
    fun q => q.mean).filter fun m => decide (m > 0)
  if pos = [] then 0 else pos.sum / (pos.length : ℚ)

/-- The predicate a row must pass to survive the hall filter: the sentinel
target lets every row through, any other target is compared against the
trimmed building cell. -/
def hallKeep (hall : String) (r : Row) : Bool :=
  hall == "ALL" || jsTrim (coalesceStr (r COL_BUILDING)) == hall

/-- Build a concrete row from an association list of cells; columns that are
not listed are `undefined`, as in a parsed CSV record. -/
def mkRow (cells : List (String × CellValue)) : Row :=
  fun c => ((cells.find? fun p => p.1 == c).map fun p => p.2).getD .undefined

/-- A respondent in Hall A with an RA, answering the first RA-Support
question with 5. -/
def raYesRow : Row :=
  mkRow [(COL_BUILDING, .str "Hall A"), (COL_RA_ASSIGNED, .str "Yes"),
    ("My RA is approachable and easy to contact.", .str "5")]

/-- A respondent in Hall A without an RA, answering the first RA-Support
question with a valid 3 that must nevertheless be ignored. -/
def raNoRow : Row :=
  mkRow [(COL_BUILDING, .str "Hall A"), (COL_RA_ASSIGNED, .str "No"),
    ("My RA is approachable and easy to contact.", .str "3")]

/-- A row whose empowerment answers give the question means [0, 4, 2, 0]:
the second and third empowerment questions are answered 4 and 2, the rest
are blank. -/
def empRow : Row :=
  mkRow [("Living on campus helps me reflect on my personal values and goals.", .str "4"),
    ("When I disagree with staff or policies, I feel comfortable expressing my perspective.", .str "2")]

/-- A row answering the first Overall-Experience question with 4. -/
def overall4Row : Row :=
  mkRow [("Living in on-campus housing has positively impacted my USF experience.", .str "4")]

/-- A row answering the first Overall-Experience question with 2. -/
def overall2Row : Row :=
  mkRow [("Living in on-campus housing has positively impacted my USF experience.", .str "2")]

/-- A dataset whose label carries the year 2000 and whose single row gives
the Overall Experience index the score 4. -/
def yearDs : Dataset := { id := "d0", label := "2000 Survey", rows := [overall4Row], source := .upload }

/-- A filler dataset with no rows: its every index score is 0, so the trend
series drops it. -/
def fillerDs : Dataset := { id := "f", label := "filler", rows := [], source := .upload }

/-- A dataset whose label contains no four-digit year and whose single row
gives the Overall Experience index the score 2. -/
def noYearDs : Dataset := { id := "d1", label := "NoYear", rows := [overall2Row], source := .upload }

/-- 1002 datasets: the year-2000 dataset first, 1000 empty fillers, and the
year-less dataset last, at index 1001. -/
def bigDatasets : List Dataset := yearDs :: (List.replicate 1000 fillerDs ++ [noYearDs])

/-- First of two datasets sharing the label "2024 Survey". -/
def dupA : Dataset := { id := "a1", label := "2024 Survey", rows := [overall4Row], source := .upload }

/-- Second of two datasets sharing the label "2024 Survey". -/
def dupB : Dataset := { id := "a2", label := "2024 Survey", rows := [overall2Row], source := .upload }

/-- The RA-Support entry of the index catalog. -/
def raSupportConfig : IndexConfig := INDEXES.get ⟨2, by decide⟩

/-- The Empowerment & Development entry of the index catalog. -/
def empowermentConfig : IndexConfig := INDEXES.get ⟨4, by decide⟩

/-- The Empowerment index score computed from `empRow` alone. -/
def empScore4 : IndexScore :=
  { key := .empowerment, label := "Empowerment & Development", color := "#ec4899", mean := 3 }

/-- A trend point for a 2025 survey scoring 3.8. -/
def trendA : TrendPoint := { datasetLabel := "2025 Survey", order := 2025, score := 38/10 }

/-- A trend point for a 2026 survey scoring 4.1. -/
def trendB : TrendPoint := { datasetLabel := "2026 Survey", order := 2026, score := 41/10 }

/-- Folding `likertStep` over a row list accumulates exactly the sum and the
count of the question's valid scores. -/
lemma likertStep_foldl (rf : Option (Row → Bool)) (q : String) :
    ∀ (rows : List Row) (s₀ : ℚ) (c₀ : ℕ),
      rows.foldl (likertStep rf q) (s₀, c₀) =
        (s₀ + (validScores rows q rf).sum, c₀ + (validScores rows q rf).length) := by
  intro rows
  induction rows with
  | nil =>
    intro s₀ c₀
    cases rf <;> simp [validScores, eligibleRows]
  | cons r rows ih =>
    intro s₀ c₀
    rw [List.foldl_cons]
    cases rf with
    | none =>
      cases hx : toLikert (r q) with
      | none =>
        have hv : validScores (r :: rows) q none = validScores rows q none := by
          simp [validScores, eligibleRows, List.filterMap_cons, hx]
        rw [show likertStep none q (s₀, c₀) r = (s₀, c₀) by simp [likertStep, hx], ih, hv]
      | some x =>
        have hv : validScores (r :: rows) q none = x :: validScores rows q none := by
          simp [validScores, eligibleRows, List.filterMap_cons, hx]
        rw [show likertStep none q (s₀, c₀) r = (s₀ + x, c₀ + 1) by
          simp [likertStep, hx], ih, hv]
        rw [List.sum_cons, List.length_cons]
        simp only [Prod.mk.injEq]
        refine ⟨by ring, by omega⟩
    | some f =>
      cases hf : f r with
      | false =>
        have he : List.filter f (r :: rows) = List.filter f rows :=
          List.filter_cons_of_neg (by simp [hf])
        have hv : validScores (r :: rows) q (some f) = validScores rows q (some f) := by
          simp [validScores, eligibleRows, he]
        rw [show likertStep (some f) q (s₀, c₀) r = (s₀, c₀) by
          simp [likertStep, hf], ih, hv]
      | true =>
        have he : List.filter f (r :: rows) = r :: List.filter f rows :=
          List.filter_cons_of_pos (by simp [hf])
        cases hx : toLikert (r q) with
        | none =>
          have hv : validScores (r :: rows) q (some f) = validScores rows q (some f) := by
            simp [validScores, eligibleRows, he, List.filterMap_cons, hx]
          rw [show likertStep (some f) q (s₀, c₀) r = (s₀, c₀) by
            simp [likertStep, hf, hx], ih, hv]
        | some x =>
          have hv : validScores (r :: rows) q (some f) = x :: validScores rows q (some f) := by
            simp [validScores, eligibleRows, he, List.filterMap_cons, hx]
          rw [show likertStep (some f) q (s₀, c₀) r = (s₀ + x, c₀ + 1) by
            simp [likertStep, hf, hx], ih, hv]
          rw [List.sum_cons, List.length_cons]
          simp only [Prod.mk.injEq]
          refine ⟨by ring, by omega⟩

/-- `computeQuestionMeans` computes, question by question, exactly the
specified mean. -/
lemma computeQuestionMeans_eq (rows : List Row) (questions : List String)
    (rf : Option (Row → Bool)) :
    computeQuestionMeans rows questions rf =
      questions.map fun q => ⟨q, questionMeanSpec rows q rf⟩ := by
  unfold computeQuestionMeans questionMeanSpec
  apply List.map_congr_left
  intro q _
  rw [likertStep_foldl]
  simp

/-- `toLikert` only ever returns values in [1, 5]. -/
lemma toLikert_bounds {v : CellValue} {x : ℚ} (h : toLikert v = some x) :
    1 ≤ x ∧ x ≤ 5 := by
  cases v with
  | null => simp [toLikert] at h
  | undefined => simp [toLikert] at h
  | num n =>
    by_cases hc : n < 1 ∨ n > 5
    · simp [toLikert, if_pos hc] at h
    · rw [toLikert, if_neg hc] at h
      rw [Option.some_inj] at h
      subst h
      push_neg at hc
      exact hc
  | str raw =>
    rw [toLikert] at h
    by_cases he : jsTrim raw = ""
    · rw [if_pos he] at h; cases h
    · rw [if_neg he] at h
      cases hn : jsNumber (jsTrim raw) with
      | none => rw [hn] at h; cases h
      | some n =>
        rw [hn] at h
        have h2 : (if n < 1 ∨ n > 5 then (none : Option ℚ) else some n) = some x := h
        by_cases hc : n < 1 ∨ n > 5
        · rw [if_pos hc] at h2; cases h2
        · rw [if_neg hc] at h2
          rw [Option.some_inj] at h2
          subst h2
          push_neg at hc
          exact hc

/-- Every valid score of a question lies in [1, 5]. -/
lemma validScores_bounds {rows : List Row} {q : String}
    {rf : Option (Row → Bool)} {x : ℚ} (h : x ∈ validScores rows q rf) :
    1 ≤ x ∧ x ≤ 5 := by
  simp only [validScores, List.mem_filterMap] at h
  obtain ⟨row, _, hrow⟩ := h
  exact toLikert_bounds hrow

/-- A question mean over at least one valid response lies in [1, 5]. -/
lemma questionMeanSpec_bounds {rows : List Row} {q : String}
    {rf : Option (Row → Bool)} (h : validScores rows q rf ≠ []) :
    1 ≤ questionMeanSpec rows q rf ∧ questionMeanSpec rows q rf ≤ 5 := by
  have hlen : 0 < (validScores rows q rf).length := List.length_pos.mpr h
  have hlenQ : (0 : ℚ) < ((validScores rows q rf).length : ℚ) := by exact_mod_cast hlen
  unfold questionMeanSpec
  rw [if_pos hlen]
  constructor
  · rw [one_le_div hlenQ]
    have hs := List.card_nsmul_le_sum (validScores rows q rf) 1
      (fun x hx => (validScores_bounds hx).1)
    simpa using hs
  · rw [div_le_iff₀ hlenQ]
    have hs := List.sum_le_card_nsmul (validScores rows q rf) 5
      (fun x hx => (validScores_bounds hx).2)
    rw [nsmul_eq_mul, mul_comm] at hs
    exact hs

/-- The 0 sentinel appears exactly when a question has no valid response. -/
lemma questionMeanSpec_zero_iff {rows : List Row} {q : String}
    {rf : Option (Row → Bool)} :
    questionMeanSpec rows q rf = 0 ↔ validScores rows q rf = [] := by
  constructor
  · intro h
    by_contra hne
    have hb := (questionMeanSpec_bounds hne).1
    rw [h] at hb
    linarith
  · intro h
    unfold questionMeanSpec
    rw [h]
    simp

/-- Aggregating with an eligibility predicate is aggregating the filtered
rows with no predicate. -/
lemma computeQuestionMeans_some_filter (rows : List Row) (qs : List String)
    (f : Row → Bool) :
    computeQuestionMeans rows qs (some f) =
      computeQuestionMeans (rows.filter f) qs none := by
  rw [computeQuestionMeans_eq, computeQuestionMeans_eq]
  rfl

/-- The hall filter is the list filter by the `hallKeep` predicate. -/
lemma filterRowsByHall_eq_filter (rows : List Row) (hall : String) :
    filterRowsByHall rows hall = rows.filter (hallKeep hall) := by
  by_cases h : hall = "ALL"
  · subst h
    rw [filterRowsByHall, if_pos rfl]
    have hfun : (hallKeep "ALL") = fun _ : Row => true := by
      funext r
      simp [hallKeep]
    rw [hfun, List.filter_true]
  · rw [filterRowsByHall, if_neg h]
    apply List.filter_congr
    intro r _
    have hb : ("ALL" == hall) = false ∨ (hall == "ALL") = false := by
      right; simp [h]
    simp [hallKeep, h]

/-- Reading back a just-assigned JavaScript object property. -/
lemma lookupObj_objSet (obj : List (String × ℚ)) (k : String) (v : ℚ) (l : String) :
    lookupObj (objSet obj k v) l = if l = k then some v else lookupObj obj l := by
  induction obj with
  | nil =>
    by_cases hl : l = k
    · subst hl
      simp [objSet, lookupObj]
    · have hkl : (k == l) = false := beq_eq_false_iff_ne.mpr (Ne.symm hl)
      simp [objSet, lookupObj, hkl, hl]
  | cons p t ih =>
    by_cases hp : p.1 = k
    · simp only [objSet, beq_iff_eq, hp, if_true]
      by_cases hl : l = k
      · subst hl
        simp [lookupObj]
      · have hkl : (k == l) = false := beq_eq_false_iff_ne.mpr (Ne.symm hl)
        have hpl : (p.1 == l) = false := by rw [hp]; exact hkl
        simp [lookupObj, hkl, hl, hpl]
    · simp only [objSet, beq_iff_eq, hp, if_false]
      by_cases hpl : p.1 = l
      · have hlk : l ≠ k := fun hh => hp (hpl.trans hh)
        simp [lookupObj, hpl, hlk]
      · have hplb : (p.1 == l) = false := beq_eq_false_iff_ne.mpr hpl
        simp [lookupObj, hplb, ih]

/-- The keys after a JavaScript property assignment. -/
lemma mem_keys_objSet (obj : List (String × ℚ)) (k : String) (v : ℚ) (l : String) :
    l ∈ (objSet obj k v).map Prod.fst ↔ l = k ∨ l ∈ obj.map Prod.fst := by
  induction obj with
  | nil => simp [objSet]
  | cons p t ih =>
    by_cases hp : p.1 = k
    · simp only [objSet, beq_iff_eq, hp, if_true]
      simp [hp]
    · simp only [objSet, beq_iff_eq, hp, if_false]
      simp [ih]
      tauto


/-- JavaScript property assignment preserves distinctness of keys. -/
lemma nodup_keys_objSet {obj : List (String × ℚ)} (k : String) (v : ℚ)
    (h : (obj.map Prod.fst).Nodup) : ((objSet obj k v).map Prod.fst).Nodup := by
  induction obj with
  | nil => simp [objSet]
  | cons p t ih =>
    rw [List.map_cons, List.nodup_cons] at h
    by_cases hp : p.1 = k
    · rw [objSet, if_pos (by simp [hp])]
      rw [List.map_cons, List.nodup_cons]
      exact ⟨hp ▸ h.1, h.2⟩
    · rw [objSet, if_neg (by simp [hp])]
      rw [List.map_cons, List.nodup_cons]
      refine ⟨?_, ih h.2⟩
      rw [mem_keys_objSet]
      push_neg
      exact ⟨hp, h.1⟩

/-- Looking up a label in the comparison row built by repeated assignment
finds the value of the last dataset carrying that label. -/
lemma lookupObj_foldl (f : Dataset → ℚ) (l : String) :
    ∀ (ds : List Dataset) (init : List (String × ℚ)),
      lookupObj (ds.foldl (fun obj d => objSet obj d.label (f d)) init) l =
        ((ds.filter fun d => d.label == l).getLast?).elim (lookupObj init l)
          (fun d => some (f d)) := by
  intro ds
  induction ds with
  | nil => intro init; simp
  | cons d t ih =>
    intro init
    rw [List.foldl_cons, ih]
    by_cases hd : d.label = l
    · rw [List.filter_cons_of_pos (by simp [hd])]
      cases htf : (t.filter fun d => d.label == l) with
      | nil =>
        simp [lookupObj_objSet, hd]
      | cons x xs =>
        rw [List.getLast?_cons_cons]
        cases hxx : (x :: xs).getLast? with
        | none => exact absurd (List.getLast?_eq_none_iff.mp hxx) (by simp)
        | some y => simp
    · rw [List.filter_cons_of_neg (by simp [hd])]
      rw [lookupObj_objSet, if_neg (fun hh => hd hh.symm)]

/-- The comparison row built by repeated assignment has distinct keys. -/
lemma nodup_keys_foldl (f : Dataset → ℚ) :
    ∀ (ds : List Dataset) (init : List (String × ℚ)),
      (init.map Prod.fst).Nodup →
      ((ds.foldl (fun obj d => objSet obj d.label (f d)) init).map Prod.fst).Nodup := by
  intro ds
  induction ds with
  | nil => intro init h; simpa using h
  | cons d t ih =>
    intro init h
    rw [List.foldl_cons]
    exact ih _ (nodup_keys_objSet _ _ h)

/-- C1: For every row set, each index score produced by `computeIndexScores`
is the arithmetic mean of the positive ("has data") question means only —
constituent questions with mean 0 ("no data") are excluded rather than
averaged in as 0, and when no question under the index has data the index
mean is 0.  Concretely, a row set giving the Empowerment index per-question
means [0, 4, 2, 0] yields the index mean 3 (the average of 4 and 2), not
the 1.5 that averaging the zeros in would give. -/
theorem C1_index_mean_excludes_no_data (rows : List Row) (i : Nat)
    (idx : IndexConfig) (s : IndexScore)
    (hidx : INDEXES[i]? = some idx)
    (hs : (computeIndexScores rows)[i]? = some s) :
    s.mean = indexMeanSpec rows idx ∧
    (computeQuestionMeans [empRow] empowermentConfig.questions
        empowermentConfig.rowFilter).map (fun t => t.mean) = [0, 4, 2, 0] ∧
    (computeIndexScores [empRow]).map (fun t => t.mean) = [0, 0, 0, 0, 3, 0] := by
  refine ⟨?_, by with_unfolding_all decide, by with_unfolding_all decide⟩
  rw [computeIndexScores, List.getElem?_map, hidx] at hs
  rw [Option.map_some', Option.some_inj] at hs
  rw [← hs]
  show (if (((computeQuestionMeans rows idx.questions idx.rowFilter).map fun q => q.mean).filter
        fun m => decide (m > 0)).length > 0 then
      (((computeQuestionMeans rows idx.questions idx.rowFilter).map fun q => q.mean).filter
        fun m => decide (m > 0)).foldl (· + ·) 0 /
        ((((computeQuestionMeans rows idx.questions idx.rowFilter).map fun q => q.mean).filter
          fun m => decide (m > 0)).length : ℚ)
    else 0) = indexMeanSpec rows idx
  rw [indexMeanSpec]
  rcases eq_or_ne (((computeQuestionMeans rows idx.questions idx.rowFilter).map
      fun q => q.mean).filter fun m => decide (m > 0)) [] with hemp | hne
  · rw [hemp]
    simp
  · have hlen : 0 < (((computeQuestionMeans rows idx.questions idx.rowFilter).map
        fun q => q.mean).filter fun m => decide (m > 0)).length := List.length_pos.mpr hne
    rw [if_pos hlen, if_neg hne, List.sum_eq_foldl]

/-- Witness for C1: the Empowerment index of the single-row set `[empRow]`
has question means [0, 4, 2, 0] and index mean 3. -/
theorem C1_witness :
    (INDEXES[4]? = some empowermentConfig) ∧
    ((computeIndexScores [empRow])[4]? = some empScore4) ∧
    (empScore4.mean = indexMeanSpec [empRow] empowermentConfig ∧
      (computeQuestionMeans [empRow] empowermentConfig.questions
        empowermentConfig.rowFilter).map (fun t => t.mean) = [0, 4, 2, 0] ∧
      (computeIndexScores [empRow]).map (fun t => t.mean) = [0, 0, 0, 0, 3, 0]) := by
  refine ⟨by with_unfolding_all rfl, by with_unfolding_all decide, ?_⟩
  exact C1_index_mean_excludes_no_data [empRow] 4 empowermentConfig empScore4
    (by with_unfolding_all rfl) (by with_unfolding_all decide)

/-- C2 counterexample: the claim says every output of Likert Coercion lies
in {1, 2, 3, 4, 5, absent}, but the code never rounds — the cell "3.5"
parses to the finite in-range number 3.5 and is returned as is, a value
that is neither absent nor any of the five integers. -/
theorem C2_counterexample :
    toLikert (.str "3.5") = some (7/2) ∧
    toLikert (.str "3.5") ≠ none ∧
    toLikert (.str "3.5") ≠ some 1 ∧ toLikert (.str "3.5") ≠ some 2 ∧
    toLikert (.str "3.5") ≠ some 3 ∧ toLikert (.str "3.5") ≠ some 4 ∧
    toLikert (.str "3.5") ≠ some 5 := by
  with_unfolding_all decide

/-- C2 (amended): for every input cell value, Likert Coercion returns
absent or a finite number in the interval [1, 5] (not necessarily an
integer); it returns absent for null, undefined, "", "0", "6" and "abc",
and in general for every null/undefined/empty-string/non-numeric/out-of-
range value, and — being a total function — never raises an error. -/
theorem C2_likert_range (v : CellValue) (x : ℚ) (hx : toLikert v = some x)
    (s : String) (hs : jsNumber (jsTrim s) = none) (q : ℚ) (hq : q < 1 ∨ q > 5) :
    (1 ≤ x ∧ x ≤ 5) ∧
    toLikert .null = none ∧
    toLikert .undefined = none ∧
    toLikert (.str "") = none ∧
    toLikert (.str "0") = none ∧
    toLikert (.str "6") = none ∧
    toLikert (.str "abc") = none ∧
    toLikert (.str s) = none ∧
    toLikert (.num q) = none := by
  refine ⟨toLikert_bounds hx, by with_unfolding_all decide, by with_unfolding_all decide,
    by with_unfolding_all decide, by with_unfolding_all decide, by with_unfolding_all decide,
    by with_unfolding_all decide, ?_, ?_⟩
  · rw [toLikert]
    by_cases he : jsTrim s = ""
    · rw [if_pos he]
    · rw [if_neg he, hs]
  · rw [toLikert, if_pos hq]

/-- Witness for C2's amended theorem at the cell "3", the non-numeric
string "abc" and the out-of-range number 6. -/
theorem C2_witness :
    (toLikert (.str "3") = some 3 ∧ jsNumber (jsTrim "abc") = none ∧
      ((6 : ℚ) < 1 ∨ (6 : ℚ) > 5)) ∧
    ((1 ≤ (3 : ℚ) ∧ (3 : ℚ) ≤ 5) ∧
      toLikert .null = none ∧
      toLikert .undefined = none ∧
      toLikert (.str "") = none ∧
      toLikert (.str "0") = none ∧
      toLikert (.str "6") = none ∧
      toLikert (.str "abc") = none ∧
      toLikert (.str "abc") = none ∧
      toLikert (.num 6) = none) := by
  refine ⟨⟨by with_unfolding_all decide, by with_unfolding_all decide,
    by with_unfolding_all decide⟩, ?_⟩
  exact C2_likert_range (.str "3") 3 (by with_unfolding_all decide)
    "abc" (by with_unfolding_all decide) 6 (by with_unfolding_all decide)

/-- C3: the Question Aggregator's output has exactly the questions of the
input list, in order and number, for any row set and any optional
eligibility predicate; and a question with zero valid responses is still
emitted, with mean 0 as the "no data" sentinel. -/
theorem C3_question_aggregator_shape (rows : List Row) (questions : List String)
    (rf : Option (Row → Bool)) (s : QuestionStat)
    (hmem : s ∈ computeQuestionMeans rows questions rf)
    (hnone : validScores rows s.question rf = []) :
    (computeQuestionMeans rows questions rf).map (fun t => t.question) = questions ∧
    (computeQuestionMeans rows questions rf).length = questions.length ∧
    s.mean = 0 := by
  refine ⟨?_, ?_, ?_⟩
  · rw [computeQuestionMeans_eq, List.map_map]
    exact List.map_id questions
  · rw [computeQuestionMeans_eq, List.length_map]
  · rw [computeQuestionMeans_eq, List.mem_map] at hmem
    obtain ⟨q, hq, hsq⟩ := hmem
    have hq1 : s.question = q := by rw [← hsq]
    have hq2 : s.mean = questionMeanSpec rows q rf := by rw [← hsq]
    rw [hq2, questionMeanSpec_zero_iff]
    rw [hq1] at hnone
    exact hnone

/-- Witness for C3: the question "Missing question" receives no valid
response from `[empRow]` and is emitted with mean 0. -/
theorem C3_witness :
    (⟨"Missing question", 0⟩ ∈ computeQuestionMeans [empRow] ["Missing question"] none ∧
      validScores [empRow] (QuestionStat.question ⟨"Missing question", 0⟩) none = []) ∧
    ((computeQuestionMeans [empRow] ["Missing question"] none).map
        (fun t => t.question) = ["Missing question"] ∧
      (computeQuestionMeans [empRow] ["Missing question"] none).length =
        (["Missing question"] : List String).length ∧
      (⟨"Missing question", 0⟩ : QuestionStat).mean = 0) := by
  refine ⟨⟨by with_unfolding_all decide, by with_unfolding_all decide⟩, ?_⟩
  exact C3_question_aggregator_shape [empRow] ["Missing question"] none
    ⟨"Missing question", 0⟩ (by with_unfolding_all decide) (by with_unfolding_all decide)

/-- C5: a row whose RA-assigned cell trims to "No" contributes to no
RA-Support question mean — removing it from the row set changes nothing —
and the RA-Support eligibility predicate composes with the hall filter: the
rows aggregated are exactly those passing both the hall-filter predicate
and the eligibility predicate. -/
theorem C5_ra_support_eligibility (pre post rows : List Row) (row : Row)
    (hall : String)
    (hNo : jsTrim (coalesceStr (row COL_RA_ASSIGNED)) = "No") :
    raSupportConfig.rowFilter = some raAssignedYes ∧
    computeQuestionMeans (pre ++ row :: post) raSupportConfig.questions
        (some raAssignedYes) =
      computeQuestionMeans (pre ++ post) raSupportConfig.questions
        (some raAssignedYes) ∧
    computeQuestionMeans (filterRowsByHall rows hall) raSupportConfig.questions
        (some raAssignedYes) =
      computeQuestionMeans
        (rows.filter fun r => hallKeep hall r && raAssignedYes r)
        raSupportConfig.questions none := by
  have hfalse : raAssignedYes row = false := by
    rw [raAssignedYes, hNo]
    rfl
  refine ⟨rfl, ?_, ?_⟩
  · rw [computeQuestionMeans_some_filter, computeQuestionMeans_some_filter,
      List.filter_append, List.filter_append,
      List.filter_cons_of_neg (by simp [hfalse])]
  · have hcomm : (rows.filter fun r => hallKeep hall r && raAssignedYes r) =
        (rows.filter (hallKeep hall)).filter raAssignedYes := by
      rw [List.filter_filter]
      apply List.filter_congr
      intro r _
      rw [Bool.and_comm]
    rw [computeQuestionMeans_some_filter, filterRowsByHall_eq_filter, ← hcomm]

/-- Witness for C5: the "No" row `raNoRow` contributes nothing next to
`raYesRow`, under the hall filter "Hall A". -/
theorem C5_witness :
    (jsTrim (coalesceStr (raNoRow COL_RA_ASSIGNED)) = "No") ∧
    (raSupportConfig.rowFilter = some raAssignedYes ∧
      computeQuestionMeans ([] ++ raNoRow :: [raYesRow]) raSupportConfig.questions
          (some raAssignedYes) =
        computeQuestionMeans ([] ++ [raYesRow]) raSupportConfig.questions
          (some raAssignedYes) ∧
      computeQuestionMeans (filterRowsByHall [raYesRow, raNoRow] "Hall A")
          raSupportConfig.questions (some raAssignedYes) =
        computeQuestionMeans
          ([raYesRow, raNoRow].filter fun r => hallKeep "Hall A" r && raAssignedYes r)
          raSupportConfig.questions none) := by
  refine ⟨by with_unfolding_all decide, ?_⟩
  exact C5_ra_support_eligibility [] [raYesRow] [raYesRow, raNoRow] raNoRow
    "Hall A" (by with_unfolding_all decide)

/-- C6: filtering by the sentinel hall value "ALL" returns the original row
list unchanged — the filter is the identity on that input, hence idempotent
there — and filtering by a non-sentinel hall value whose trimmed
building-column match occurs in zero rows returns the empty list. -/
theorem C6_hall_filter_all_and_empty (rows : List Row) (hall : String)
    (hne : hall ≠ "ALL")
    (hnone : ∀ r ∈ rows, jsTrim (coalesceStr (r COL_BUILDING)) ≠ hall) :
    filterRowsByHall rows "ALL" = rows ∧ filterRowsByHall rows hall = [] := by
  constructor
  · rw [filterRowsByHall, if_pos rfl]
  · rw [filterRowsByHall, if_neg hne, List.filter_eq_nil_iff]
    intro r hr
    simp [hnone r hr]

/-- Witness for C6: two Hall A rows pass "ALL" unchanged and the unmatched
hall "Zed" filters to the empty list. -/
theorem C6_witness :
    ("Zed" ≠ "ALL" ∧
      ∀ r ∈ [raYesRow, raNoRow], jsTrim (coalesceStr (r COL_BUILDING)) ≠ "Zed") ∧
    (filterRowsByHall [raYesRow, raNoRow] "ALL" = [raYesRow, raNoRow] ∧
      filterRowsByHall [raYesRow, raNoRow] "Zed" = []) := by
  refine ⟨⟨by decide, by with_unfolding_all decide⟩, ?_⟩
  exact C6_hall_filter_all_and_empty [raYesRow, raNoRow] "Zed" (by decide)
    (by with_unfolding_all decide)

/-- C7: a question mean computed by the Question Aggregator lies in [1, 5]
whenever at least one eligible row has a valid (non-absent) Likert-coerced
response for the question, and equals the 0 "no data" sentinel exactly when
no row does. -/
theorem C7_question_mean_range (rows : List Row) (questions : List String)
    (rf : Option (Row → Bool)) (s : QuestionStat)
    (hmem : s ∈ computeQuestionMeans rows questions rf) :
    (validScores rows s.question rf ≠ [] → 1 ≤ s.mean ∧ s.mean ≤ 5) ∧
    (s.mean = 0 ↔ validScores rows s.question rf = []) := by
  rw [computeQuestionMeans_eq, List.mem_map] at hmem
  obtain ⟨q, hq, hsq⟩ := hmem
  have hq1 : s.question = q := by rw [← hsq]
  have hq2 : s.mean = questionMeanSpec rows q rf := by rw [← hsq]
  rw [hq1, hq2]
  exact ⟨questionMeanSpec_bounds, questionMeanSpec_zero_iff⟩

/-- Witness for C7: the first RA-Support question answered 5 by the single
row of `[raYesRow]` has mean 5 ∈ [1, 5], and the mean is not the sentinel. -/
theorem C7_witness :
    ((⟨"My RA is approachable and easy to contact.", 5⟩ : QuestionStat) ∈
      computeQuestionMeans [raYesRow]
        ["My RA is approachable and easy to contact."] none) ∧
    ((validScores [raYesRow]
        (QuestionStat.question ⟨"My RA is approachable and easy to contact.", 5⟩) none ≠ [] →
      1 ≤ (QuestionStat.mean ⟨"My RA is approachable and easy to contact.", 5⟩) ∧
        (QuestionStat.mean ⟨"My RA is approachable and easy to contact.", 5⟩) ≤ 5) ∧
    ((QuestionStat.mean ⟨"My RA is approachable and easy to contact.", 5⟩) = 0 ↔
      validScores [raYesRow]
        (QuestionStat.question ⟨"My RA is approachable and easy to contact.", 5⟩) none = [])) := by
  refine ⟨by with_unfolding_all decide, ?_⟩
  exact C7_question_mean_range [raYesRow]
    ["My RA is approachable and easy to contact."] none
    ⟨"My RA is approachable and easy to contact.", 5⟩ (by with_unfolding_all decide)

/-- C8: for a non-empty trend series with score list S the Y-axis domain is
[max(1, min S − 0.2), min(5, max S + 0.2)], and for the empty series it is
the full [1, 5] scale. -/
theorem C8_trend_domain (trend : List TrendPoint) (m M : ℚ)
    (hm : (trend.map fun r => r.score).min? = some m)
    (hM : (trend.map fun r => r.score).max? = some M) :
    trendDomain trend = (max 1 (m - 1/5), min 5 (M + 1/5)) ∧
    trendDomain [] = (1, 5) := by
  refine ⟨?_, rfl⟩
  cases trend with
  | nil => simp at hm
  | cons t ts =>
    have hd : trendDomain (t :: ts) =
        (max 1 ((ts.map fun r => r.score).foldl min t.score - 1/5),
         min 5 ((ts.map fun r => r.score).foldl max t.score + 1/5)) := rfl
    rw [List.map_cons, List.min?_cons'] at hm
    rw [List.map_cons, List.max?_cons'] at hM
    rw [Option.some_inj] at hm hM
    rw [hd, hm, hM]

/-- Witness for C8: the two-point series with scores 3.8 and 4.1 gets the
domain [max(1, 3.8 − 0.2), min(5, 4.1 + 0.2)] = [3.6, 4.3]. -/
theorem C8_witness :
    (([trendA, trendB].map fun r => r.score).min? = some (38/10) ∧
      ([trendA, trendB].map fun r => r.score).max? = some (41/10)) ∧
    (trendDomain [trendA, trendB] = (max 1 (38/10 - 1/5), min 5 (41/10 + 1/5)) ∧
      trendDomain [] = (1, 5)) := by
  refine ⟨⟨by with_unfolding_all decide, by with_unfolding_all decide⟩, ?_⟩
  exact C8_trend_domain [trendA, trendB] (38/10) (41/10)
    (by with_unfolding_all decide) (by with_unfolding_all decide)

/-- C9: the hall-filter sentinel comparison is case-sensitive and exact —
for any non-"ALL" target the filter compares the trimmed building cell (the
target itself is not trimmed) against the target by string equality, so the
lowercase target "all" does not bypass filtering and, on a row set with no
building equal to "all", yields the empty list while "ALL" returns the rows
unchanged. -/
theorem C9_hall_filter_case_sensitive (rows : List Row) (hall : String)
    (hne : hall ≠ "ALL") :
    filterRowsByHall rows hall =
      rows.filter (fun r => jsTrim (coalesceStr (r COL_BUILDING)) == hall) ∧
    filterRowsByHall [raYesRow, raNoRow] "all" = [] ∧
    filterRowsByHall [raYesRow, raNoRow] "All" = [] ∧
    filterRowsByHall [raYesRow, raNoRow] "ALL" = [raYesRow, raNoRow] := by
  refine ⟨?_, ?_, ?_, ?_⟩
  · rw [filterRowsByHall, if_neg hne]
  · with_unfolding_all rfl
  · with_unfolding_all rfl
  · with_unfolding_all rfl

/-- Witness for C9 at the lowercase target "all". -/
theorem C9_witness :
    ("all" ≠ "ALL") ∧
    (filterRowsByHall [raYesRow, raNoRow] "all" =
      [raYesRow, raNoRow].filter
        (fun r => jsTrim (coalesceStr (r COL_BUILDING)) == "all") ∧
    filterRowsByHall [raYesRow, raNoRow] "all" = [] ∧
    filterRowsByHall [raYesRow, raNoRow] "All" = [] ∧
    filterRowsByHall [raYesRow, raNoRow] "ALL" = [raYesRow, raNoRow]) := by
  refine ⟨by decide, ?_⟩
  exact C9_hall_filter_case_sensitive [raYesRow, raNoRow] "all" (by decide)

/-- C10: each comparison-matrix row is keyed by dataset label — its keys are
distinct, and for every label the single numeric column holds the rounded
score of the last dataset in insertion order bearing that label, earlier
same-label datasets being overwritten — and a dataset for which no score is
found for an index contributes the value 0. -/
theorem C10_comparison_label_keyed (datasets : List Dataset) (hall : String)
    (i : Fin INDEXES.length) (l : String) (scores : List IndexScore)
    (k : IndexKey) (h2 : 2 ≤ datasets.length)
    (hfind : scores.find? (fun s => decide (s.key = k)) = none) :
    comparisonData datasets hall =
      INDEXES.map (fun idx => (idx.label, rowFor datasets hall idx)) ∧
    ((rowFor datasets hall (INDEXES.get i)).map Prod.fst).Nodup ∧
    lookupObj (rowFor datasets hall (INDEXES.get i)) l =
      ((datasets.filter fun d => d.label == l).getLast?).map
        (fun d => round2 (comparisonCell (scoresFor d hall) (INDEXES.get i).key)) ∧
    comparisonCell scores k = 0 := by
  refine ⟨?_, ?_, ?_, ?_⟩
  · rw [comparisonData, if_neg (by omega)]
  · exact nodup_keys_foldl _ datasets [] (by simp)
  · rw [rowFor,
      lookupObj_foldl
        (fun ds => round2 (comparisonCell (scoresFor ds hall) (INDEXES.get i).key))
        l datasets []]
    cases hlast : (datasets.filter fun d => d.label == l).getLast? with
    | none => simp [lookupObj]
    | some d => simp
  · rw [comparisonCell, hfind]

/-- Witness for C10: two datasets both labeled "2024 Survey" produce, for
the Overall Experience row, the single column holding the second dataset's
score — the first is overwritten. -/
theorem C10_witness :
    (2 ≤ ([dupA, dupB] : List Dataset).length ∧
      ([] : List IndexScore).find?
        (fun s => decide (s.key = IndexKey.overallExperience)) = none) ∧
    (comparisonData [dupA, dupB] "ALL" =
      INDEXES.map (fun idx => (idx.label, rowFor [dupA, dupB] "ALL" idx)) ∧
    ((rowFor [dupA, dupB] "ALL" (INDEXES.get ⟨5, by decide⟩)).map Prod.fst).Nodup ∧
    lookupObj (rowFor [dupA, dupB] "ALL" (INDEXES.get ⟨5, by decide⟩)) "2024 Survey" =
      (([dupA, dupB].filter fun d => d.label == "2024 Survey").getLast?).map
        (fun d => round2 (comparisonCell (scoresFor d "ALL")
          (INDEXES.get ⟨5, by decide⟩).key)) ∧
    comparisonCell [] IndexKey.overallExperience = 0) := by
  refine ⟨⟨by decide, rfl⟩, ?_⟩
  exact C10_comparison_label_keyed [dupA, dupB] "ALL" ⟨5, by decide⟩
    "2024 Survey" [] IndexKey.overallExperience (by decide) rfl

set_option maxRecDepth 400000 in
/-- C4 (code bug, evaluated at the failing input): with 1002 datasets — the
dataset labeled "2000 Survey" (index score 4) first, 1000 empty fillers
(score 0, dropped from the series), and the year-less dataset "NoYear"
(index score 2) last, at index 1001 — `extractYearOrOrder` gives "NoYear"
the order key 1000 + 1001 = 2001, which falls inside the year range, so the
trend series sorts "NoYear" after "2000 Survey".  This contradicts the
claim (and the code's own comment "Put non-year datasets first, then by
order added"): a dataset without a detectable year sorts after one with a
year. -/
theorem C4_trend_order_collision :
    trendLineData bigDatasets "ALL" IndexKey.overallExperience =
      [{ datasetLabel := "2000 Survey", order := 2000, score := 4 },
       { datasetLabel := "NoYear", order := 2001, score := 2 }] ∧
    extractYearOrOrder "NoYear" 1001 = 2001 ∧
    extractYearOrOrder "2000 Survey" 0 = 2000 ∧
    bigDatasets.length = 1002 := by
  refine ⟨by with_unfolding_all decide, by with_unfolding_all decide,
    by with_unfolding_all decide, by with_unfolding_all decide⟩

end ResLifeDashboard
